import Mathlib

/-!
Verification of the multi-server MCP tool gateway
(`src/integrations/mcp/mcp_client.py`).

The Python module is shallowly embedded: JSON values become an inductive
type, the schema sanitizer `_clean_json_schema`, the result normalizer
`_process_mcp_result`, configuration loading `load_mcp_server_config`, and
the gateway lifecycle methods `initialize` / `execute_mcp_tool` / `cleanup`
become pure Lean functions.  Interaction with external MCP servers
(session creation, remote tool invocation, disconnection) is passed in as
explicit environment records, and the provider calls a run performs are
returned as an explicit event trace, so that statements of the form
"performs no provider call" are directly expressible.
-/

namespace MCPGateway

/-- JSON values as produced by Python's `json` module, except that object
fields are kept as an ordered association list so that a *textual* document
with duplicate keys is representable; `json_load` below models the
duplicate-key resolution Python applies while parsing. -/
inductive Json where
  | null
  | bool (b : Bool)
  | num (n : Int)
  | str (s : String)
  | arr (elems : List Json)
  | obj (fields : List (String × Json))
deriving Repr

/-- Python truthiness of a JSON value (`if not self.config: ...`). -/
def jsonFalsy : Json → Bool
  | .null => true
  | .bool b => !b
  | .num n => n == 0
  | .str s => s.isEmpty
  | .arr xs => xs.isEmpty
  | .obj kvs => kvs.isEmpty

/-- Lookup in an association list with Python `dict` semantics: the value
of the *last* binding of the key wins (later inserts overwrite earlier
ones). -/
def lookupLast {α : Type} (key : String) : List (String × α) → Option α
  | [] => none
  | (k, v) :: rest =>
      match lookupLast key rest with
      | some r => some r
      | none => if k = key then some v else none

/-- The `unsupported_properties` set of `MultiMCPClient._clean_json_schema`
(mcp_client.py lines 130-134).  Note that it contains the empty string in
addition to the JSON-Schema keywords. -/
def unsupportedProperties : List String :=
  ["$schema", "additionalProperties", "exclusiveMinimum", "exclusiveMaximum",
   "multipleOf", "patternProperties", "dependencies", "definitions",
   "allOf", "anyOf", "oneOf", "not", "if", "then", "else", ""]

mutual
/-- Model of `MultiMCPClient._clean_json_schema` (mcp_client.py lines 121-151): a
non-dict argument is returned unchanged; a dict is rebuilt with the
unsupported keys dropped and the remaining values processed by the body of
the loop (`cleanValue`). -/
def _clean_json_schema : Json → Json
  | .obj kvs => .obj (cleanFields kvs)
  | s => s

/-- The `for key, value in schema.items()` loop of `_clean_json_schema`:
keys in `unsupported_properties` are skipped, every other binding is kept
with its value processed. -/
def cleanFields : List (String × Json) → List (String × Json)
  | [] => []
  | (k, v) :: rest =>
      if k ∈ unsupportedProperties then cleanFields rest
      else (k, cleanValue v) :: cleanFields rest

/-- Per-value branch of the loop body: a dict value is recursively cleaned,
a list value has its dict elements cleaned (`cleanItems`), any other value
is kept as is. -/
def cleanValue : Json → Json
  | .obj kvs => .obj (cleanFields kvs)
  | .arr items => .arr (cleanItems items)
  | v => v

/-- The list comprehension inside `_clean_json_schema`: only elements that
are dicts are recursively cleaned; every other element — in particular a
nested list — is kept unchanged. -/
def cleanItems : List Json → List Json
  | [] => []
  | (Json.obj kvs) :: rest => Json.obj (cleanFields kvs) :: cleanItems rest
  | v :: rest => v :: cleanItems rest
end

/-- The keyword set named by the specification for claim C7: the
combinator and meta keywords only, *without* the empty-string key that the
source also removes. -/
def claimedKeywords : List String :=
  ["$schema", "additionalProperties", "exclusiveMinimum", "exclusiveMaximum",
   "multipleOf", "patternProperties", "dependencies", "definitions",
   "allOf", "anyOf", "oneOf", "not", "if", "then", "else"]

mutual
/-- Modelled from the spec's wording of claim C7 (for comparison with the
source function): remove exactly the claimed keywords at *every* nesting
depth of object and array fragments, preserving everything else. -/
def cleanSpec : Json → Json
  | .obj kvs => .obj (cleanSpecFields kvs)
  | .arr xs => .arr (cleanSpecItems xs)
  | s => s

/-- Object part of `cleanSpec`. -/
def cleanSpecFields : List (String × Json) → List (String × Json)
  | [] => []
  | (k, v) :: rest =>
      if k ∈ claimedKeywords then cleanSpecFields rest
      else (k, cleanSpec v) :: cleanSpecFields rest

/-- Array part of `cleanSpec`: recurses into every element. -/
def cleanSpecItems : List Json → List Json
  | [] => []
  | v :: rest => cleanSpec v :: cleanSpecItems rest
end

/-! ## Result normalization (`_process_mcp_result`) -/

/-- One content item of a raw MCP tool result, following the MCP content
interface the `mcp_use` library exposes (every item carries a `type`
string; a `text` item carries its text).  Attributes the source reads with
`getattr(·, ·, default)` are modelled as `Option`s.  `other` stands for any
item whose `type` is none of the five recognized ones; its payload is the
Python `str` rendering of the item. -/
inductive ContentPart where
  | text (t : String)
  | image (data : Option String)
  | resource (res : Option String)
  | executable_code (code : Option String) (language : Option String)
  | code_execution_result (output : Option String)
  | other (rendering : String)

/-- An entry of the `processed_content` list built by the first loop of
`_process_mcp_result`: either a `\x7b'type': 'text', ...\x7d` dict or one
of the two non-text dict shapes (image / resource). -/
inductive ProcessedItem where
  | textItem (t : String)
  | imageItem (data : Option String)
  | resourceItem (res : Option String)

/-- Python `repr` of an optional string value (`None` or a quoted
string), as it appears inside `str(...)` of a dict. -/
def pyReprOpt : Option String → String
  | none => "None"
  | some s => "\x27" ++ s ++ "\x27"

/-- The first loop of `_process_mcp_result` (mcp_client.py lines 163-211),
mapping one content item to its `processed_content` entry. -/
def processPart : ContentPart → ProcessedItem
  | .text t => .textItem t
  | .image d => .imageItem d
  | .resource r => .resourceItem r
  | .executable_code c l =>
      .textItem ("Code (" ++ l.getD "text" ++ "):\n" ++ c.getD "")
  | .code_execution_result o =>
      .textItem ("Execution Result:\n" ++ o.getD "")
  | .other s => .textItem s

/-- The second loop of `_process_mcp_result` (lines 216-221): a text entry
contributes its text, a non-text entry contributes the Python `str` of its
dict. -/
def renderItem : ProcessedItem → String
  | .textItem t => t
  | .imageItem d =>
      "\x7b\x27type\x27: \x27image\x27, \x27data\x27: " ++ pyReprOpt d ++ "\x7d"
  | .resourceItem r =>
      "\x7b\x27type\x27: \x27resource\x27, \x27resource\x27: " ++ pyReprOpt r ++ "\x7d"

/-- A raw MCP tool result as `_process_mcp_result` probes it:
`content = none` models a result without a (truthy) `content` attribute,
`text` models the optional bare `text` attribute, `isError` the optional
provider error flag, and `strRep` the Python `str` rendering of the whole
result used by the final fallback. -/
structure RawResult where
  content : Option (List ContentPart)
  text : Option String
  isError : Option Bool
  strRep : String

/-- The normalized envelope `\x7b'content': ..., 'isError': ...\x7d`
returned by `_process_mcp_result`. -/
structure Envelope where
  content : String
  isError : Bool
deriving DecidableEq, Repr

/-- The tail of `_process_mcp_result` (lines 228-233): no usable content
parts, so use the bare `text` attribute if present (keeping the provider's
error flag), else `str(result)` with `isError` hard-coded to `False`. -/
def fallbackResult (r : RawResult) : Envelope :=
  match r.text with
  | some t => ⟨t, r.isError.getD false⟩
  | none => ⟨r.strRep, false⟩

/-- Model of `MultiMCPClient._process_mcp_result` (mcp_client.py lines 153-238).
The surrounding `try/except` is unreachable in this pure model, so the
function always returns the normalized envelope. -/
def _process_mcp_result (r : RawResult) : Envelope :=
  match r.content with
  | some parts =>
      if parts.isEmpty then fallbackResult r
      else
        ⟨String.intercalate "\n" ((parts.map processPart).map renderItem),
         r.isError.getD false⟩
  | none => fallbackResult r

/-! ## Gateway state and lifecycle -/

/-- A provider-local tool descriptor as read off `session.connector.tools`
(name, description, raw input schema). -/
structure MCPTool where
  name : String
  description : String
  inputSchema : Json

/-- One entry of `self._tool_declarations`. -/
structure ToolDecl where
  name : String
  description : String
  parameters : Json

/-- The f-string `f"mcp_\x7bserver_name\x7d_\x7btool.name\x7d"` of
`MultiMCPClient.initialize` (line 95). -/
def namespacedToolName (server toolName : String) : String :=
  "mcp_" ++ server ++ "_" ++ toolName

/-- The tool declaration built for one provider tool (lines 95-107). -/
def mkToolDecl (server : String) (t : MCPTool) : ToolDecl :=
  { name := namespacedToolName server t.name,
    description := "Tool from " ++ server ++ " server: " ++ t.description,
    parameters := _clean_json_schema t.inputSchema }

/-- The mutable attributes of a `MultiMCPClient` instance.  Sessions are
identified by their server name (the session object itself carries no
state this model needs); `tool_map` is an association list with
`lookupLast` dict semantics. -/
structure GatewayState where
  mcp_client : Bool
  sessions : List String
  initialized : Bool
  config : Json
  tool_declarations : List ToolDecl
  tool_map : List (String × String × String)

/-- A fresh `MultiMCPClient` as `__init__` leaves it, given the config
value `load_mcp_server_config` returned. -/
def freshGateway (cfg : Json) : GatewayState :=
  { mcp_client := false, sessions := [], initialized := false,
    config := cfg, tool_declarations := [], tool_map := [] }

/-- The external MCP world: `connect name` is the outcome of
`create_session` plus reading `connector.tools` (`none` = the session
could not be created; `some ts` = connected, exposing tools `ts`), and
`callTool server tool args` is the outcome of `connector.call_tool`
(`none` = the call raised). -/
structure MCPEnv where
  connect : String → Option (List MCPTool)
  callTool : String → String → Json → Option RawResult

/-- Observable provider work: attempting to create a session to a server,
or invoking a provider tool. -/
inductive Event where
  | sessionAttempt (server : String)
  | toolCall (server tool : String)
deriving DecidableEq, Repr

/-- Does a JSON server entry survive the config conversion of
`initialize` (lines 54-59)?  `server_info["command"]` / `["args"]` raise
unless the entry is a dict with both keys. -/
def serverEntryOk (info : Json) : Bool :=
  match info with
  | .obj kvs => (lookupLast "command" kvs).isSome && (lookupLast "args" kvs).isSome
  | _ => false

/-- Model of `MultiMCPClient.initialize` (mcp_client.py lines 43-119) as a pure
state transformer, returning the provider work performed.  The outer
`try/except` is modelled by the branches that return the state unchanged
(config conversion raised before any attribute was mutated); per-server
`create_session` failures are the `none` results of `env.connect`. -/
def initializeGateway (g : GatewayState) (env : MCPEnv) : GatewayState × List Event :=
  if g.initialized then (g, [])
  else if jsonFalsy g.config then (g, [])
  else
    match g.config with
    | .obj cfgEntries =>
        if cfgEntries.all (fun kv => serverEntryOk kv.2) then
          let g1 := { g with mcp_client := true }
          let names := cfgEntries.map Prod.fst
          let events := names.map Event.sessionAttempt
          let connected :=
            names.filterMap (fun nm => (env.connect nm).map (fun ts => (nm, ts)))
          let g2 := { g1 with sessions := connected.map Prod.fst }
          if connected.isEmpty then
            ({ g2 with initialized := false }, events)
          else
            let newDecls :=
              connected.flatMap (fun st => st.2.map (mkToolDecl st.1))
            let newMap :=
              connected.flatMap (fun st =>
                st.2.map (fun t => (namespacedToolName st.1 t.name, st.1, t.name)))
            ({ g2 with
                tool_declarations := g.tool_declarations ++ newDecls,
                tool_map := g.tool_map ++ newMap,
                initialized := true }, events)
        else (g, [])
    | _ => (g, [])

/-- The error taxonomy of `execute_mcp_tool`: the two `ValueError`s of
lines 249 and 252 (the spec's `UnknownToolError` and
`ProviderUnavailableError`) and the re-raised remote failure of line 308
(the spec's `ExecutionError`). -/
inductive ExecErr where
  | unknownTool (toolName : String)
  | providerUnavailable (server : String)
  | executionError
deriving DecidableEq, Repr

/-- Model of `MultiMCPClient.execute_mcp_tool` (mcp_client.py lines 243-308):
lazy initialization, routing-table lookup (with Python's falsiness check
on the looked-up pair), session check, then the remote call followed by
result normalization.  Returns the final state, the outcome, and the
provider work performed. -/
def execute_mcp_tool (g : GatewayState) (env : MCPEnv)
    (toolName : String) (params : Json) :
    GatewayState × Except ExecErr Envelope × List Event :=
  let (g1, ev1) := if g.initialized then (g, []) else initializeGateway g env
  match lookupLast toolName g1.tool_map with
  | none => (g1, .error (.unknownTool toolName), ev1)
  | some (server, orig) =>
      if server.isEmpty || orig.isEmpty then
        (g1, .error (.unknownTool toolName), ev1)
      else if !(g1.sessions.contains server) then
        (g1, .error (.providerUnavailable server), ev1)
      else
        match env.callTool server orig params with
        | some r =>
            (g1, .ok (_process_mcp_result r), ev1 ++ [.toolCall server orig])
        | none => (g1, .error .executionError, ev1 ++ [.toolCall server orig])

/-- Outcome of one cleanup step (a disconnect or the aggregate close):
it may succeed, time out, or raise — the source catches the last two. -/
inductive StepOutcome where
  | success
  | timeout
  | failure
deriving DecidableEq, Repr

/-- The external behavior cleanup runs against: per-session disconnect
outcomes and the aggregate `close_all_sessions` outcome. -/
structure CleanupEnv where
  disconnect : String → StepOutcome
  closeAll : StepOutcome

/-- Log line produced for one session's disconnect attempt
(mcp_client.py lines 321-330). -/
def disconnectLog (server : String) : StepOutcome → String
  | .success => "[MCP] Session for " ++ server ++ " closed successfully."
  | .timeout => "[MCP] Timeout closing session for " ++ server
  | .failure => "[MCP] Error closing session for " ++ server

/-- Log line produced by the aggregate close attempt (lines 332-340). -/
def closeAllLog : StepOutcome → String
  | .success => "[MCP] All sessions closed via MCP client."
  | .timeout => "[MCP] Timeout closing MCP client sessions"
  | .failure => "[MCP] Error closing MCP client sessions"

/-- Model of `MultiMCPClient.cleanup` (mcp_client.py lines 310-351): flips
`_initialized` off, best-effort-disconnects every session, best-effort
closes the aggregate client, then clears every reference.  Every step
failure is caught, so the function is total and the resulting state does
not depend on the outcomes; the log records what happened. -/
def cleanup (g : GatewayState) (env : CleanupEnv) : GatewayState × List String :=
  let sessionLogs := g.sessions.map (fun s => disconnectLog s (env.disconnect s))
  let clientLogs := if g.mcp_client then [closeAllLog env.closeAll] else []
  ({ g with sessions := [], mcp_client := false,
            tool_declarations := [], tool_map := [], initialized := false },
   ("[MCP] Starting cleanup process..." :: sessionLogs ++ clientLogs)
     ++ ["[MCP] Cleanup completed successfully"])

/-! ## Configuration loading -/

/-- One `dict.__setitem__`: overwrite in place if the key is present,
append otherwise. -/
def upsert (acc : List (String × Json)) (k : String) (v : Json) :
    List (String × Json) :=
  if acc.any (fun kv => kv.1 = k) then
    acc.map (fun kv => if kv.1 = k then (k, v) else kv)
  else acc ++ [(k, v)]

/-- Folding an object literal's members into a Python `dict`: first
occurrence fixes the position, last occurrence fixes the value. -/
def dedupObj (kvs : List (String × Json)) : List (String × Json) :=
  kvs.foldl (fun acc kv => upsert acc kv.1 kv.2) []

mutual
/-- Python `json.load` on a textual document whose object literals may
repeat keys: objects are parsed member by member into a `dict`, so a
repeated key keeps its first position but takes its last value.  The
recursion loads the member values first and then resolves duplicates,
which is exactly the order `dict.__setitem__` produces. -/
def json_load : Json → Json
  | .obj kvs => .obj (dedupObj (jlFields kvs))
  | .arr xs => .arr (jlItems xs)
  | v => v

/-- Member-wise load of an object literal. -/
def jlFields : List (String × Json) → List (String × Json)
  | [] => []
  | (k, v) :: rest => (k, json_load v) :: jlFields rest

/-- Element-wise load of an array literal. -/
def jlItems : List Json → List Json
  | [] => []
  | x :: rest => json_load x :: jlItems rest
end

/-- The failure modes of `load_mcp_server_config`: `loadFailure` for an
unreadable file (`OSError`) or unparsable document (`JSONDecodeError`),
`keyError` for a document without a top-level `"mcpServers"` key, and
`typeError` for indexing a non-object document. -/
inductive LoadErr where
  | loadFailure
  | keyError
  | typeError
deriving DecidableEq, Repr

/-- Model of `load_mcp_server_config` (mcp_client.py lines 29-31): open and parse
the file (`none` = unreadable or unparsable), then index the parsed
document with `"mcpServers"`.  No field of any provider entry is
validated. -/
def load_mcp_server_config (doc : Option Json) : Except LoadErr Json :=
  match doc with
  | none => .error .loadFailure
  | some j =>
      match json_load j with
      | .obj kvs =>
          match lookupLast "mcpServers" kvs with
          | some v => .ok v
          | none => .error .keyError
      | _ => .error .typeError

/-- Model of `MultiMCPClient.__init__` (mcp_client.py lines 35-41): the
constructor calls `load_mcp_server_config` unguarded, so a load failure
propagates out of construction; on success the gateway starts fresh with
the loaded config. -/
def MultiMCPClient_mk (doc : Option Json) : Except LoadErr GatewayState :=
  (load_mcp_server_config doc).map freshGateway

/-! ## Helper lemmas about the schema sanitizer -/

mutual
theorem cleanFields_idem : ∀ kvs, cleanFields (cleanFields kvs) = cleanFields kvs
  | [] => rfl
  | (k, v) :: rest => by
      by_cases h : k ∈ unsupportedProperties
      · simp [cleanFields, h, cleanFields_idem rest]
      · simp [cleanFields, h, cleanFields_idem rest, cleanValue_idem v]

theorem cleanValue_idem : ∀ v, cleanValue (cleanValue v) = cleanValue v
  | .obj kvs => by simp [cleanValue, cleanFields_idem kvs]
  | .arr xs => by simp [cleanValue, cleanItems_idem xs]
  | .null => rfl
  | .bool _ => rfl
  | .num _ => rfl
  | .str _ => rfl

theorem cleanItems_idem : ∀ xs, cleanItems (cleanItems xs) = cleanItems xs
  | [] => rfl
  | (Json.obj kvs) :: rest => by
      simp [cleanItems, cleanFields_idem kvs, cleanItems_idem rest]
  | .null :: rest => by simp [cleanItems, cleanItems_idem rest]
  | .bool b :: rest => by simp [cleanItems, cleanItems_idem rest]
  | .num n :: rest => by simp [cleanItems, cleanItems_idem rest]
  | .str s :: rest => by simp [cleanItems, cleanItems_idem rest]
  | .arr xs :: rest => by simp [cleanItems, cleanItems_idem rest]
end

theorem cleanFields_eq_filter_map : ∀ kvs, cleanFields kvs =
    (kvs.filter (fun kv => decide (kv.1 ∉ unsupportedProperties))).map
      (fun kv => (kv.1, cleanValue kv.2))
  | [] => rfl
  | (k, v) :: rest => by
      by_cases h : k ∈ unsupportedProperties
      · simp [cleanFields, h, cleanFields_eq_filter_map rest, List.filter_cons]
      · simp [cleanFields, h, cleanFields_eq_filter_map rest, List.filter_cons]

theorem cleanItems_eq_map : ∀ xs, cleanItems xs =
    xs.map (fun x => match x with
      | Json.obj kvs => _clean_json_schema (Json.obj kvs)
      | v => v)
  | [] => rfl
  | x :: rest => by
      cases x <;> simp [cleanItems, _clean_json_schema, cleanItems_eq_map rest]

/-! ## Claims C7 and C8: schema sanitization -/

/-- Claim C7 fails on the code at the concrete schema `\x7b"": null\x7d`:
the claim says sanitization removes *exactly* the listed unsupported
keywords and preserves every other key, but the source's
`unsupported_properties` set also contains the empty-string key, so the
source drops the `""` member that the claimed behavior (`cleanSpec`)
keeps. -/
theorem claim_C7_counterexample :
    _clean_json_schema (Json.obj [("", Json.null)]) ≠
      cleanSpec (Json.obj [("", Json.null)]) := by
  have h1 : _clean_json_schema (Json.obj [("", Json.null)]) = Json.obj [] := rfl
  have h2 : cleanSpec (Json.obj [("", Json.null)]) = Json.obj [("", Json.null)] := rfl
  rw [h1, h2]
  intro h
  injection h with h3
  simp at h3

/-- Claim C7 as amended: `_clean_json_schema` leaves every non-object
value (including a top-level array) unchanged; on an object it removes
exactly the keys of `unsupported_properties` — the listed schema keywords
*plus the empty-string key* — and keeps every other binding, recursing
into object values and into the object elements of array values, while
array elements of array values (and every non-object, non-array value)
pass through unchanged.  The function is pure by construction (it is a
Lean function of the schema alone). -/
theorem claim_C7_sanitize_amended :
    (_clean_json_schema Json.null = Json.null)
    ∧ (∀ b, _clean_json_schema (Json.bool b) = Json.bool b)
    ∧ (∀ n, _clean_json_schema (Json.num n) = Json.num n)
    ∧ (∀ s, _clean_json_schema (Json.str s) = Json.str s)
    ∧ (∀ xs, _clean_json_schema (Json.arr xs) = Json.arr xs)
    ∧ (∀ kvs, _clean_json_schema (Json.obj kvs) =
        Json.obj ((kvs.filter (fun kv => decide (kv.1 ∉ unsupportedProperties))).map
          (fun kv => (kv.1, cleanValue kv.2))))
    ∧ (∀ kvs, cleanValue (Json.obj kvs) = _clean_json_schema (Json.obj kvs))
    ∧ (∀ xs, cleanValue (Json.arr xs) =
        Json.arr (xs.map (fun x => match x with
          | Json.obj kvs => _clean_json_schema (Json.obj kvs)
          | v => v)))
    ∧ (cleanValue Json.null = Json.null)
    ∧ (∀ b, cleanValue (Json.bool b) = Json.bool b)
    ∧ (∀ n, cleanValue (Json.num n) = Json.num n)
    ∧ (∀ s, cleanValue (Json.str s) = Json.str s) :=
  ⟨rfl, fun _ => rfl, fun _ => rfl, fun _ => rfl, fun _ => rfl,
   fun kvs => by simp [_clean_json_schema, cleanFields_eq_filter_map kvs],
   fun kvs => rfl,
   fun xs => by simp [cleanValue, cleanItems_eq_map xs],
   rfl, fun _ => rfl, fun _ => rfl, fun _ => rfl⟩

/-- Claim C8: schema sanitization is idempotent — sanitizing an already
sanitized schema is the identity. -/
theorem claim_C8_sanitize_idempotent :
    ∀ j, _clean_json_schema (_clean_json_schema j) = _clean_json_schema j
  | .obj kvs => by simp [_clean_json_schema, cleanFields_idem kvs]
  | .null => rfl
  | .bool _ => rfl
  | .num _ => rfl
  | .str _ => rfl
  | .arr _ => rfl

/-! ## Claim C4: namespacing injectivity -/

/-- Claim C4 fails on the code at the concrete pairs `("a_b", "c")` and
`("a", "b_c")`: the pairs are distinct (so in particular the provider
names are distinct), yet both derive the namespaced name `"mcp_a_b_c"`,
because the separator character also occurs inside the provider name. -/
theorem claim_C4_counterexample :
    namespacedToolName "a_b" "c" = namespacedToolName "a" "b_c"
    ∧ (("a_b", "c") : String × String) ≠ ("a", "b_c") :=
  ⟨rfl, by decide⟩

/-- Unambiguous framing of `sep`-free prefixes: if neither `a` nor `b`
contains the separator character, splitting at the first separator is
unambiguous. -/
theorem sep_framing : ∀ (a b t t' : List Char), '_' ∉ a → '_' ∉ b →
    a ++ '_' :: t = b ++ '_' :: t' → a = b ∧ t = t'
  | [], [], t, t', _, _, h => by simpa using h
  | [], c :: bs, t, t', _, hb, h => by
      simp only [List.nil_append, List.cons_append, List.cons.injEq] at h
      exact absurd (h.1 ▸ List.mem_cons_self c bs) (by simp at hb; tauto)
  | c :: as, [], t, t', ha, _, h => by
      simp only [List.nil_append, List.cons_append, List.cons.injEq] at h
      exact absurd (h.1 ▸ List.mem_cons_self c as) (by simp at ha; tauto)
  | c :: as, c' :: bs, t, t', ha, hb, h => by
      simp only [List.cons_append, List.cons.injEq] at h
      have ih := sep_framing as bs t t' (fun hm => ha (List.mem_cons_of_mem c hm))
        (fun hm => hb (List.mem_cons_of_mem c' hm)) h.2
      exact ⟨by rw [h.1, ih.1], ih.2⟩

/-- Injectivity of the namespacing scheme for separator-free provider
names (shared helper). -/
theorem namespacedToolName_inj (p₁ p₂ t₁ t₂ : String)
    (h₁ : '_' ∉ p₁.data) (h₂ : '_' ∉ p₂.data)
    (h : namespacedToolName p₁ t₁ = namespacedToolName p₂ t₂) :
    p₁ = p₂ ∧ t₁ = t₂ := by
  have hd := congrArg String.data h
  simp only [namespacedToolName, String.data_append, List.append_assoc] at hd
  have hd2 : p₁.data ++ '_' :: t₁.data = p₂.data ++ '_' :: t₂.data := by
    have := List.append_cancel_left hd
    simpa using this
  have hres := sep_framing _ _ _ _ h₁ h₂ hd2
  refine ⟨?_, ?_⟩
  · cases p₁; cases p₂; exact congrArg String.mk (by simpa using hres.1)
  · cases t₁; cases t₂; exact congrArg String.mk (by simpa using hres.2)

/-- Claim C4 as amended: namespacing is injective provided the provider
names do not contain the separator character `'_'` — for any two pairs
with separator-free provider names, equal namespaced names force equal
providers and equal local tool names.  (Local tool names are
unconstrained.) -/
theorem claim_C4_namespacing_injective (p₁ p₂ t₁ t₂ : String)
    (h₁ : '_' ∉ p₁.data) (h₂ : '_' ∉ p₂.data)
    (h : namespacedToolName p₁ t₁ = namespacedToolName p₂ t₂) :
    p₁ = p₂ ∧ t₁ = t₂ :=
  namespacedToolName_inj p₁ p₂ t₁ t₂ h₁ h₂ h

/-- Witness for the amended claim C4, applied at the concrete
separator-free provider `"srvA"` and tool `"search"`, discharging both
separator-freeness hypotheses by evaluation. -/
theorem claim_C4_namespacing_injective_witness :
    ("srvA" : String) = "srvA" ∧ ("search" : String) = "search" :=
  claim_C4_namespacing_injective "srvA" "srvA" "search" "search"
    (by decide) (by decide) rfl

/-! ## Claims C2 and C10: result normalization -/

/-- Claim C2: for a raw result with a non-empty content list, each item is
rendered by its kind (code fragments as a language-tagged text block,
execution outputs as a labeled text block, unrecognized kinds as the
string rendering of the raw item) and the renderings are joined in
order, with `is_error` taken from the provider's own flag; a result with
no content list but a bare text field returns that text directly; and the
single-execution-output scenario with text "42" yields the labeled block
with `is_error` false. -/
theorem claim_C2_result_normalization :
    (∀ (r : RawResult) (parts : List ContentPart),
        r.content = some parts → parts ≠ [] →
        _process_mcp_result r =
          ⟨String.intercalate "\n"
            (parts.map (fun p => renderItem (processPart p))),
           r.isError.getD false⟩)
    ∧ (∀ c l, renderItem (processPart (ContentPart.executable_code c l)) =
        "Code (" ++ l.getD "text" ++ "):\n" ++ c.getD "")
    ∧ (∀ o, renderItem (processPart (ContentPart.code_execution_result o)) =
        "Execution Result:\n" ++ o.getD "")
    ∧ (∀ s, renderItem (processPart (ContentPart.other s)) = s)
    ∧ (∀ (r : RawResult) (t : String),
        (r.content = none ∨ r.content = some []) → r.text = some t →
        _process_mcp_result r = ⟨t, r.isError.getD false⟩)
    ∧ (_process_mcp_result
        ⟨some [ContentPart.code_execution_result (some "42")], none, some false, ""⟩
        = ⟨"Execution Result:\n42", false⟩) := by
  refine ⟨?_, fun _ _ => rfl, fun _ => rfl, fun _ => rfl, ?_, rfl⟩
  · intro r parts hc hne
    simp [_process_mcp_result, hc, hne, List.map_map, Function.comp_def]
  · intro r t hc ht
    rcases hc with hc | hc <;> simp [_process_mcp_result, fallbackResult, hc, ht]

/-- Witness for claim C2, applied at a one-text-item result whose
provider error flag is set, discharging the content hypotheses
concretely. -/
theorem claim_C2_result_normalization_witness :
    _process_mcp_result ⟨some [ContentPart.text "hi"], none, some true, ""⟩ =
      ⟨String.intercalate "\n"
        ([ContentPart.text "hi"].map (fun p => renderItem (processPart p))),
       (some true).getD false⟩ :=
  claim_C2_result_normalization.1 _ [ContentPart.text "hi"] rfl (by simp)

/-- Claim C10 (implicit): when a raw result has neither a non-empty
content list nor a bare text field, the final fallback hard-codes
`isError := false`, discarding the provider's own error flag — an errored
response of that shape is reported as a non-error result. -/
theorem claim_C10_fallback_discards_error_flag :
    ∀ (r : RawResult), (r.content = none ∨ r.content = some []) →
      r.text = none → _process_mcp_result r = ⟨r.strRep, false⟩ := by
  intro r hc ht
  rcases hc with hc | hc <;> simp [_process_mcp_result, fallbackResult, hc, ht]

/-- Witness for claim C10 at a result whose provider flag *is* set: the
normalized envelope still reports `isError = false`. -/
theorem claim_C10_fallback_discards_error_flag_witness :
    _process_mcp_result ⟨none, none, some true, "provider errored"⟩ =
      ⟨"provider errored", false⟩ :=
  claim_C10_fallback_discards_error_flag _ (Or.inl rfl) rfl

/-! ## Claim C3: unknown tool names -/

/-- Claim C3: on an initialized gateway, executing any tool name absent
from the routing table fails with the unknown-tool error, leaves the
state unchanged, and performs no provider work at all (no session
attempt, no tool call). -/
theorem claim_C3_unknown_tool :
    ∀ (g : GatewayState) (env : MCPEnv) (toolName : String) (params : Json),
      g.initialized = true → lookupLast toolName g.tool_map = none →
      execute_mcp_tool g env toolName params =
        (g, Except.error (ExecErr.unknownTool toolName), ([] : List Event)) := by
  intro g env toolName params hinit hlook
  simp [execute_mcp_tool, hinit, hlook]

/-- Witness for claim C3 at a concrete initialized gateway with an empty
routing table. -/
theorem claim_C3_unknown_tool_witness :
    execute_mcp_tool
      { mcp_client := true, sessions := ["A"], initialized := true,
        config := Json.null, tool_declarations := [], tool_map := [] }
      ⟨fun _ => none, fun _ _ _ => none⟩ "mcp_A_missing" Json.null =
      ({ mcp_client := true, sessions := ["A"], initialized := true,
         config := Json.null, tool_declarations := [], tool_map := [] },
       Except.error (ExecErr.unknownTool "mcp_A_missing"), ([] : List Event)) :=
  claim_C3_unknown_tool _ _ _ _ rfl rfl

/-! ## Claim C5: best-effort cleanup -/

/-- Claim C5: cleanup is total (every step failure is absorbed into the
log, never re-raised), its resulting state does not depend on any step
outcome and equals a freshly constructed gateway holding the same config
(sessions, catalog and routing table emptied, flags reset) — so calling
it before initialization completes without error and `initialize` can run
again afterwards from a clean state; and the final log line always
reports completion. -/
theorem claim_C5_cleanup_best_effort :
    ∀ (g : GatewayState) (env : CleanupEnv),
      (cleanup g env).1 = freshGateway g.config
      ∧ (cleanup g env).2.getLast? = some "[MCP] Cleanup completed successfully" := by
  intro g env
  constructor
  · cases g; simp [cleanup, freshGateway]
  · simp only [cleanup]
    rw [List.getLast?_concat]

/-! ## Claim C1: a provider that never connected -/

/-- Helper: a key bound by no entry of an association list is not found. -/
theorem lookupLast_eq_none {α : Type} (key : String) :
    ∀ (l : List (String × α)), (∀ kv ∈ l, kv.1 ≠ key) → lookupLast key l = none
  | [], _ => rfl
  | (k, v) :: rest, h => by
      have hrest := lookupLast_eq_none key rest (fun kv hm => h kv (List.mem_cons_of_mem _ hm))
      have hk : ¬ (k = key) := h (k, v) (List.mem_cons_self _ _)
      simp [lookupLast, hrest, hk]

/-- A well-formed provider launch specification (used by the concrete
two-provider configuration of claims C1 and C6). -/
def serverSpecAB : Json :=
  Json.obj [("command", Json.str "cmd"), ("args", Json.arr [])]

/-- The configuration of the C1 scenario: providers `A` and `B`, both
with well-formed launch specifications. -/
def cfgAB : Json := Json.obj [("A", serverSpecAB), ("B", serverSpecAB)]

/-- A concrete environment in which `A` connects (exposing one tool `t`)
and `B`'s command is not found, for the C1 counterexample. -/
def envABconc : MCPEnv :=
  { connect := fun s => if s = "A" then some [⟨"t", "d", Json.obj []⟩] else none,
    callTool := fun _ _ _ => some ⟨none, none, some false, "r"⟩ }

/-- The gateway of the C1 scenario after initialization. -/
def gABconc : GatewayState := (initializeGateway (freshGateway cfgAB) envABconc).1

/-- Claim C1 fails on the code at the concrete scenario it describes:
provider `B` never connects, so `B`'s tools never enter the routing
table, and executing the `B`-namespaced name `"mcp_B_t"` fails with the
*unknown-tool* error of line 249 — not with the provider-unavailable
error of line 252 that the claim (following the spec) predicts. -/
theorem claim_C1_counterexample :
    (execute_mcp_tool gABconc envABconc "mcp_B_t" Json.null).2.1 =
      Except.error (ExecErr.unknownTool "mcp_B_t")
    ∧ (match (execute_mcp_tool gABconc envABconc "mcp_B_t" Json.null).2.1 with
       | Except.error (ExecErr.providerUnavailable _) => False
       | _ => True) :=
  ⟨rfl, trivial⟩

/-- Claim C1 as amended: initializing from the `A`/`B` configuration
where `A` connects with tool list `toolsA` and `B`'s command is not found
yields a catalog containing exactly `A`'s tools, and every call for a
`B`-namespaced name fails with `UnknownToolError` (the name never entered
the routing table), leaving the state unchanged and performing no
provider call. -/
theorem claim_C1_never_connected_provider (env : MCPEnv) (toolsA : List MCPTool)
    (tname : String) (params : Json)
    (hA : env.connect "A" = some toolsA) (hB : env.connect "B" = none) :
    (initializeGateway (freshGateway cfgAB) env).1.tool_declarations =
      toolsA.map (mkToolDecl "A")
    ∧ execute_mcp_tool (initializeGateway (freshGateway cfgAB) env).1 env
        (namespacedToolName "B" tname) params =
      ((initializeGateway (freshGateway cfgAB) env).1,
       Except.error (ExecErr.unknownTool (namespacedToolName "B" tname)),
       ([] : List Event)) := by
  have hinit : initializeGateway (freshGateway cfgAB) env =
      ({ mcp_client := true, sessions := ["A"], initialized := true, config := cfgAB,
         tool_declarations := toolsA.map (mkToolDecl "A"),
         tool_map := toolsA.map (fun t => (namespacedToolName "A" t.name, "A", t.name)) },
       [Event.sessionAttempt "A", Event.sessionAttempt "B"]) := by
    simp [initializeGateway, freshGateway, cfgAB, serverSpecAB, jsonFalsy,
      serverEntryOk, lookupLast, hA, hB]
  have hlook : lookupLast (namespacedToolName "B" tname)
      (toolsA.map (fun t => (namespacedToolName "A" t.name, "A", t.name))) = none := by
    apply lookupLast_eq_none
    intro kv hm
    rcases List.mem_map.mp hm with ⟨t, _, rfl⟩
    intro hcontra
    have := (namespacedToolName_inj "A" "B" t.name tname (by decide) (by decide) hcontra).1
    simp at this
  rw [hinit]
  refine ⟨rfl, ?_⟩
  simp [execute_mcp_tool, hlook]

/-- Witness for the amended claim C1 at the concrete environment
`envABconc` (where `A` exposes the single tool `t` and `B` is
unreachable). -/
theorem claim_C1_never_connected_provider_witness :
    gABconc.tool_declarations = [⟨"t", "d", Json.obj []⟩].map (mkToolDecl "A")
    ∧ execute_mcp_tool gABconc envABconc (namespacedToolName "B" "t") Json.null =
      (gABconc, Except.error (ExecErr.unknownTool (namespacedToolName "B" "t")),
       ([] : List Event)) :=
  claim_C1_never_connected_provider envABconc [⟨"t", "d", Json.obj []⟩] "t" Json.null
    rfl rfl

/-! ## Claim C6: no new work after shutdown begins -/

/-- The single-provider configuration of the C6 scenario. -/
def cfgA1 : Json := Json.obj [("A", serverSpecAB)]

/-- Environment for the C6 scenario: `A` is reachable and exposes one
tool `t`; remote calls succeed with the bare string result `"ok"`. -/
def envA1 : MCPEnv :=
  { connect := fun s => if s = "A" then some [⟨"t", "d", Json.obj []⟩] else none,
    callTool := fun _ _ _ => some ⟨none, none, some false, "ok"⟩ }

/-- The C6 gateway after a successful initialization. -/
def gA1 : GatewayState := (initializeGateway (freshGateway cfgA1) envA1).1

/-- The C6 gateway after `cleanup` has completed (all steps succeed). -/
def gA1cleaned : GatewayState :=
  (cleanup gA1 ⟨fun _ => StepOutcome.success, StepOutcome.success⟩).1

/-- Claim C6 describes the intended blocking behavior (also asserted by
the source's own comment "Set a flag to prevent further operations" at
line 313), but the code does the opposite: the flag cleared by `cleanup`
makes a later `execute_mcp_tool` call *re-initialize* the gateway (line
244-245), so an execute call issued after the flip performs fresh
provider work — a new session attempt and a new tool call — and even
succeeds.  This theorem evaluates the code at that failing input. -/
theorem claim_C6_execute_after_cleanup_starts_work :
    gA1.initialized = true
    ∧ gA1cleaned.initialized = false
    ∧ (execute_mcp_tool gA1cleaned envA1 "mcp_A_t" Json.null).2.2 =
        [Event.sessionAttempt "A", Event.toolCall "A" "t"]
    ∧ (execute_mcp_tool gA1cleaned envA1 "mcp_A_t" Json.null).2.1 =
        Except.ok ⟨"ok", false⟩ :=
  ⟨rfl, rfl, rfl, rfl⟩

/-! ## Claim C9: configuration loading -/

/-- A configuration document with a duplicated provider name `A` whose
*last* occurrence is an empty object (no `command`, no `args`). -/
def c9dupDoc : Json :=
  Json.obj [("mcpServers",
    Json.obj [("A", Json.obj [("command", Json.str "npx"), ("args", Json.arr [])]),
              ("A", Json.obj [])])]

/-- Claim C9 fails on the code at the concrete document `c9dupDoc`:
two providers share the name `A` and the surviving entry is missing the
required `command`/`args` fields, yet loading succeeds — `json.load`
silently keeps the last duplicate and `load_mcp_server_config` validates
nothing. -/
theorem claim_C9_counterexample :
    load_mcp_server_config (some c9dupDoc) = Except.ok (Json.obj [("A", Json.obj [])])
    ∧ serverEntryOk (Json.obj []) = false :=
  ⟨rfl, rfl⟩

/-- Claim C9 as amended: loading fails (with the underlying I/O, parse,
key or type error) exactly when the source is unreadable/unparsable or
the parsed document has no top-level `mcpServers` object member; a
successful load performs no validation of the provider entries (duplicate
names are silently resolved last-wins by parsing); a load failure
propagates out of gateway construction; and a loaded configuration whose
provider entries are malformed (missing `command`/`args`) does not crash
initialization — the gateway just ends up with zero providers and an
unchanged (empty) catalog. -/
theorem claim_C9_config_loading_amended :
    (load_mcp_server_config none = Except.error LoadErr.loadFailure)
    ∧ (∀ (j : Json) (kvs : List (String × Json)) (v : Json),
        json_load j = Json.obj kvs → lookupLast "mcpServers" kvs = some v →
        load_mcp_server_config (some j) = Except.ok v)
    ∧ (∀ (j : Json) (kvs : List (String × Json)),
        json_load j = Json.obj kvs → lookupLast "mcpServers" kvs = none →
        load_mcp_server_config (some j) = Except.error LoadErr.keyError)
    ∧ (∀ (doc : Option Json) (e : LoadErr),
        load_mcp_server_config doc = Except.error e →
        MultiMCPClient_mk doc = Except.error e)
    ∧ (∀ (kvs : List (String × Json)) (env : MCPEnv),
        (kvs.all (fun kv => serverEntryOk kv.2)) = false →
        initializeGateway (freshGateway (Json.obj kvs)) env =
          (freshGateway (Json.obj kvs), ([] : List Event))) := by
  refine ⟨rfl, ?_, ?_, ?_, ?_⟩
  · intro j kvs v hj hl
    simp [load_mcp_server_config, hj, hl]
  · intro j kvs hj hl
    simp [load_mcp_server_config, hj, hl]
  · intro doc e h
    simp [MultiMCPClient_mk, h, Except.map]
  · intro kvs env hall
    have hne : ¬ kvs.isEmpty := by
      intro h
      rw [List.isEmpty_iff] at h
      subst h
      simp at hall
    simp [initializeGateway, freshGateway, jsonFalsy, hall, hne]

/-- Witness for the amended claim C9, applying the propagation conjunct
at the unreadable source: gateway construction itself fails. -/
theorem claim_C9_config_loading_amended_witness :
    MultiMCPClient_mk none = Except.error LoadErr.loadFailure :=
  claim_C9_config_loading_amended.2.2.2.1 none LoadErr.loadFailure rfl

end MCPGateway
